import Mathlib

/-!
godeploy: a shallow embedding of `deploy.go`.

The program connects to one host over SSH, uploads the files named in a
manifest, and runs the commands of a batch manifest.  Everything outside the
program text (the file system, the terminal, the `bufio`, `ssh` and `sftp`
libraries, the Go scheduler) is an explicit argument of the model:

* a manifest is what `os.Open` and the `bufio.Scanner` deliver: either an open
  error, or the lines `scanner.Text()` yields together with `scanner.Err()`;
* the remote host is a state machine (`Host`) answering `client.NewSession()`
  and `session.Run`;
* the messages received from the completion channel are the list `arrivals`,
  in the order the scheduler delivers them;
* the effects of the main goroutine are recorded in a trace of `Event`s.

Terminal colouring (`color.Set`, `color.Unset`) and the deferred `Close`
calls of `uploadFiles` and `executeBatch` are not recorded.
-/

namespace Deploy

/-! ## Go values -/

/-- A Go string is an immutable sequence of bytes. -/
abbrev GoString := List UInt8

/-- The bytes of a Go string literal (UTF-8). -/
def str (s : String) : GoString := s.data.flatMap String.utf8EncodeChar

/-- A non-nil Go `error`; `msg` is what `Error()` returns.  A value of Go type
`error` is an `Option GoError`, `none` being `nil`. -/
structure GoError where
  msg : GoString
deriving DecidableEq, Repr

/-- The slice expression `s[:n]` on a string: a run-time panic (slice bounds
out of range) when `n > len(s)`, modelled as `none`. -/
def sliceTo (s : GoString) (n : Nat) : Option GoString :=
  if n ≤ s.length then some (s.take n) else none

/-- How a call ends. -/
inductive Outcome (α : Type) where
  /-- the function returned `val` -/
  | returned (val : α)
  /-- a run-time panic or an explicit `panic(...)` unwound the goroutine -/
  | panicked
  /-- `log.Fatal`: the process exited with status 1 -/
  | exited
  /-- the goroutine waits for ever on a channel receive -/
  | blocked
deriving DecidableEq, Repr

/-- What `os.Open(path)` followed by `bufio.NewScanner(file)` delivers for a
manifest that could be opened: the successive values of `scanner.Text()` for
the calls of `scanner.Scan()` that return true, and the final `scanner.Err()`. -/
structure Scan where
  lines : List GoString
  err : Option GoError
deriving DecidableEq, Repr

/-- Effects of the main goroutine, in program order. -/
inductive Event where
  /-- `log.Println(s)` -/
  | log (s : GoString)
  /-- `log.Fatal(err)` printed `s` -/
  | logFatal (s : GoString)
  /-- `sftp.NewClient(client)` -/
  | sftpNewClient
  /-- `go func(path string) {...}(scanner.Text())`: one upload task dispatched -/
  | spawn (path : GoString)
  /-- `client.NewSession()` inside `executeBatch` -/
  | newSession
  /-- `session.Run(cmd)` -/
  | run (cmd : GoString)
deriving DecidableEq, Repr

/-- The result of a call: how it ended, the effects up to that point, and the
state of the remote host afterwards. -/
structure Result (α σ : Type) where
  outcome : Outcome α
  trace : List Event
  host : σ
deriving DecidableEq, Repr

/-! ## The remote host -/

/-- What one `session.Run(cmd)` produces.  `err` is the value `Run` returns. -/
structure CmdOutput where
  stdout : GoString
  stderr : GoString
  err : Option GoError
deriving DecidableEq, Repr

/-- The remote side of an established `*ssh.Client`, as a state machine.
`newSession` is `client.NewSession()` (its error, `none` when the session
opens); `run` is `session.Run(cmd)` on a fresh session. -/
structure Host (σ : Type) where
  newSession : σ → Option GoError × σ
  run : GoString → σ → CmdOutput × σ

/-! ## `executeBatch` (deploy.go 145-176) -/

/-- Loop state of `executeBatch`: the remote host, `stdoutBuf`, the effects. -/
structure BatchState (σ : Type) where
  host : σ
  stdoutBuf : GoString
  trace : List Event
deriving DecidableEq, Repr

/-- The body of `for scanner.Scan() { ... }` in `executeBatch`, over the lines
still to come.  `session.Stdout = &stdoutBuf` is the only redirection: the
bytes of standard output are appended to the buffer, `session.Stderr` stays
nil (the library discards that stream) and the error of `Run` is dropped.
The log line is written after `Run` has returned. -/
def batchLoop {σ : Type} (h : Host σ) :
    List GoString → BatchState σ → Outcome Unit × BatchState σ
  | [], st => (.returned (), st)
  | line :: rest, st =>
    match sliceTo line 2 with
    | none => (.panicked, st)
    | some p =>
      if p = str "//" then batchLoop h rest st
      else
        match h.newSession st.host with
        | (some e, s1) =>
          (.exited, { host := s1, stdoutBuf := st.stdoutBuf,
                      trace := st.trace ++ [.newSession, .logFatal e.msg] })
        | (none, s1) =>
          let out := h.run line s1
          batchLoop h rest
            { host := out.2
              stdoutBuf := st.stdoutBuf ++ out.1.stdout
              trace := st.trace ++
                [.newSession, .run line, .log (str "Executing: " ++ line)] }

/-- The function `executeBatch(client, path)`.  `opened` is what opening and
scanning `path` delivers, `s0` the state of the remote host at the call. -/
def executeBatch {σ : Type} (h : Host σ) (opened : Except GoError Scan) (s0 : σ) :
    Result (GoString × Option GoError) σ :=
  match opened with
  | .error e => { outcome := .returned (str "nok", some e), trace := [], host := s0 }
  | .ok scan =>
    match batchLoop h scan.lines { host := s0, stdoutBuf := [], trace := [] } with
    | (.returned _, st) =>
      match scan.err with
      | some e => { outcome := .returned (str "nok", some e), trace := st.trace, host := st.host }
      | none => { outcome := .returned (st.stdoutBuf, none), trace := st.trace, host := st.host }
    | (.panicked, st) => { outcome := .panicked, trace := st.trace, host := st.host }
    | (.exited, st) => { outcome := .exited, trace := st.trace, host := st.host }
    | (.blocked, st) => { outcome := .blocked, trace := st.trace, host := st.host }

/-! ## `uploadFiles` (deploy.go 78-143) -/

/-- Loop state of `uploadFiles`: the counter `processingFiles`, the effects,
and the messages received from the channel `c` so far.  The counter is a Go
`int`; it moves by one per manifest line and per message, so it stays far from
the limits of the machine type and is modelled as an integer. -/
structure UploadState where
  processingFiles : Int
  trace : List Event
  received : List GoString
deriving DecidableEq, Repr

/-- The body of `for scanner.Scan() { ... }` in `uploadFiles`; `base` is
`filepath.Base`. -/
def uploadScan (base : GoString → GoString) :
    List GoString → UploadState → Outcome Unit × UploadState
  | [], st => (.returned (), st)
  | line :: rest, st =>
    match sliceTo line 2 with
    | none => (.panicked, st)
    | some p =>
      if p = str "//" then uploadScan base rest st
      else
        uploadScan base rest
          { processingFiles := st.processingFiles + 1
            trace := st.trace ++ [.log (str "Uploading " ++ base line), .spawn line]
            received := st.received }

/-- The loop `for i := range c { ... }` of `uploadFiles` over the messages that
arrive on `c`.  The channel is never closed, so when no message is left the
receive blocks. -/
def receiveLoop : List GoString → UploadState → Outcome Unit × UploadState
  | [], st => (.blocked, st)
  | m :: rest, st =>
    let st1 : UploadState :=
      { processingFiles := st.processingFiles - 1
        trace := st.trace ++ [.log m]
        received := st.received ++ [m] }
    if st1.processingFiles = 0 then (.returned (), st1) else receiveLoop rest st1

/-- The outcome of `uploadFiles` together with the messages it received. -/
structure UploadResult where
  outcome : Outcome (GoString × Option GoError)
  trace : List Event
  received : List GoString
deriving DecidableEq, Repr

/-- The function `uploadFiles(client, path)`.  `opened` is what opening and
scanning `path` delivers, `sftpErr` the error of `sftp.NewClient(client)`,
`arrivals` the messages the upload tasks get through on the channel, in order
of arrival. -/
def uploadFiles (base : GoString → GoString) (opened : Except GoError Scan)
    (sftpErr : Option GoError) (arrivals : List GoString) : UploadResult :=
  match opened with
  | .error e => { outcome := .returned (str "nok", some e), trace := [], received := [] }
  | .ok scan =>
    match sftpErr with
    | some e =>
      { outcome := .returned (str "nok", some e), trace := [.sftpNewClient], received := [] }
    | none =>
      match uploadScan base scan.lines
          { processingFiles := 0, trace := [.sftpNewClient], received := [] } with
      | (.returned _, st) =>
        match receiveLoop arrivals st with
        | (.returned _, st1) =>
          { outcome := .returned (str "ok", none), trace := st1.trace, received := st1.received }
        | (.panicked, st1) =>
          { outcome := .panicked, trace := st1.trace, received := st1.received }
        | (.exited, st1) =>
          { outcome := .exited, trace := st1.trace, received := st1.received }
        | (.blocked, st1) =>
          { outcome := .blocked, trace := st1.trace, received := st1.received }
      | (.panicked, st) => { outcome := .panicked, trace := st.trace, received := st.received }
      | (.exited, st) => { outcome := .exited, trace := st.trace, received := st.received }
      | (.blocked, st) => { outcome := .blocked, trace := st.trace, received := st.received }

/-! ## Reading a trace -/

/-- The paths for which an upload task was dispatched, in order. -/
def spawned : List Event → List GoString
  | [] => []
  | .spawn p :: t => p :: spawned t
  | _ :: t => spawned t

/-- The commands handed to `session.Run`, in order. -/
def ran : List Event → List GoString
  | [] => []
  | .run c :: t => c :: ran t
  | _ :: t => ran t

/-- A manifest line that starts with the two bytes of the skip marker. -/
def hasSkipMark (line : GoString) : Bool := (str "//").isPrefixOf line

/-- The lines of a manifest that do not carry the skip marker. -/
def qualifying (lines : List GoString) : List GoString :=
  lines.filter (fun l => !hasSkipMark l)

/-- A sample `filepath.Base` for slash-separated paths: the last element of
the path after trailing slashes are removed. -/
def unixBase (path : GoString) : GoString :=
  if path = [] then str "." else
  let trimmed := (path.reverse.dropWhile (· = 47)).reverse
  let last := (trimmed.reverse.takeWhile (· ≠ 47)).reverse
  if last = [] then str "/" else last

/-! ## The upload task (deploy.go 105-130) -/

/-- The size of the copy buffer, `32*1024`. -/
def bufSize : Nat := 32 * 1024

/-- The buffer `make([]byte, 32*1024)`: all zero. -/
def freshBuf : GoString := List.replicate bufSize 0

/-- The copy loop of the upload task.  `reads` are the byte runs the
successive calls `srcFile.Read(buf)` deliver (each at most `len(buf)` long);
when none is left `Read` returns `n = 0`.  A read of `n` bytes overwrites
`buf[0:n]` and leaves the rest of the buffer as it was; `dstFile.Write(buf)`
then appends the whole buffer to the remote file.  The result is the content
of the remote file, starting from `written`. -/
def copyLoop : List GoString → GoString → GoString → GoString
  | [], _, written => written
  | chunk :: rest, buf, written =>
    if chunk.length = 0 then written
    else
      let buf1 := chunk ++ buf.drop chunk.length
      copyLoop rest buf1 (written ++ buf1)

/-- What one upload task did: the messages it sends on the channel `c`, in
order (every send waits for the receiver), the content of the remote file when
one was created, and whether the task ended in a nil-pointer panic. -/
structure TaskResult where
  sends : List GoString
  remote : Option GoString
  crashed : Bool
deriving DecidableEq, Repr

/-- The goroutine `func(path string) {...}` of `uploadFiles`.  `src` is the
result of `os.Open(path)`: an error, or the reads the file will deliver;
`dstErr` is the error of `sftp.Create(filepath.Base(path))`.

Neither error branch returns.  After a failed `os.Open`, `srcFile` is nil and
`srcFile.Read` returns `0` (with `os.ErrInvalid`), so the loop ends at once.
After a failed `sftp.Create`, `dstFile` is nil: its methods dereference the
receiver, so `dstFile.Write` panics, and so does the deferred `dstFile.Close`
when the function body is left. -/
def uploadTask (base : GoString → GoString) (path : GoString)
    (src : Except GoError (List GoString)) (dstErr : Option GoError) : TaskResult :=
  let sends1 : List GoString :=
    match src with
    | .error e => [str "Error: " ++ e.msg]
    | .ok _ => []
  let reads : List GoString :=
    match src with
    | .error _ => []
    | .ok r => r
  let done : GoString := base path ++ str " Uploaded!!!"
  match dstErr with
  | none =>
    { sends := sends1 ++ [done], remote := some (copyLoop reads freshBuf []), crashed := false }
  | some e =>
    let sends2 := sends1 ++ [str "Error: " ++ e.msg]
    match reads with
    | [] => { sends := sends2 ++ [done], remote := none, crashed := true }
    | chunk :: _ =>
      if chunk.length = 0 then { sends := sends2 ++ [done], remote := none, crashed := true }
      else { sends := sends2, remote := none, crashed := true }

/-! ## `connectToServer` and `publicKeyFile` (deploy.go 178-247) -/

/-- A handle of an `*ssh.Client` (one transport connection). -/
abbrev Conn := Nat

/-- A handle of an `*ssh.Session`. -/
abbrev Sess := Nat

/-- The two `ssh.AuthMethod`s the program builds. -/
inductive AuthMethod where
  /-- `ssh.Password(secret)` -/
  | password (secret : GoString)
  /-- `ssh.PublicKeys(key)` -/
  | publicKeys (key : GoString)
deriving DecidableEq, Repr

/-- The fields of `ssh.ClientConfig` the program sets.  An entry of `auth` is
`none` for a nil `ssh.AuthMethod`. -/
structure ClientConfig where
  user : GoString
  auth : List (Option AuthMethod)
  ignoreHostKey : Bool
deriving DecidableEq, Repr

/-- The key store: `ioutil.ReadFile` and `ssh.ParsePrivateKey`. -/
structure Keys where
  readFile : GoString → Except GoError GoString
  parsePrivateKey : GoString → Except GoError GoString

/-- The controlling terminal: what `fmt.Scanf("%s\n", &user)` stores in `user`
and what `terminal.ReadPassword` returns. -/
structure Terminal where
  scanUser : GoString
  readPassword : Except GoError GoString

/-- How far `ssh.Dial` gets before it looks at `config.Auth`. -/
inductive Transport where
  /-- the TCP connect or the key exchange failed with `e`; the library gives up
  the socket itself -/
  | failed (e : GoError)
  /-- the connection `c` is made and the server accepts the `none` request: the
  client is ready without any entry of `config.Auth` -/
  | ready (c : Conn)
  /-- the connection `c` is made and the server asks for authentication -/
  | wantsAuth (c : Conn)
deriving DecidableEq, Repr

/-- The network: the transport stage of `ssh.Dial("tcp", addr, &cfg)`, the
answer of the server to the authentication methods of a configuration (its
error, `none` when a method is accepted), and `client.NewSession()`. -/
structure Network where
  transport : GoString → Transport
  authenticate : Conn → ClientConfig → Option GoError
  newSession : Conn → Except GoError Sess

/-- How `ssh.Dial` ends. -/
inductive DialResult where
  /-- it returns `(nil, e)`; no connection is left, the library closed it -/
  | failed (e : GoError)
  /-- it returns `(client, nil)` -/
  | client (c : Conn)
  /-- it panics with a nil-pointer dereference on a nil entry of `config.Auth`;
  the connection `c` was made and is not closed -/
  | nilMethod (c : Conn)
deriving DecidableEq, Repr

/-- The call `ssh.Dial("tcp", addr, &cfg)`.  When the server asks for
authentication the library walks `config.Auth` and calls `method()` on the
entry: on a nil entry (what `publicKeyFile` returns for a key file it cannot
load) that call is a nil-pointer panic inside the handshake.  A failed
authentication closes the connection and returns the error.  The program only
builds configurations with one entry. -/
def sshDial (n : Network) (addr : GoString) (cfg : ClientConfig) : DialResult :=
  match n.transport addr with
  | .failed e => .failed e
  | .ready c => .client c
  | .wantsAuth c =>
    match cfg.auth with
    | none :: _ => .nilMethod c
    | _ =>
      match n.authenticate c cfg with
      | some e => .failed e
      | none => .client c

/-- Effects of `connectToServer`, in program order. -/
inductive ConnEvent where
  /-- `fmt.Print(s)` -/
  | print (s : GoString)
  /-- `fmt.Scanf("%s\n", &user)` -/
  | scanf
  /-- `terminal.ReadPassword(int(syscall.Stdin))` -/
  | readPassword
  /-- `fmt.Println()` -/
  | println
  /-- `ssh.Dial("tcp", addr, &cfg)` and how it ended -/
  | dial (addr : GoString) (cfg : ClientConfig) (res : DialResult)
  /-- `client.NewSession()` -/
  | clientNewSession (c : Conn)
  /-- `client.Close()` -/
  | clientClose (c : Conn)
deriving DecidableEq, Repr

/-- The function `publicKeyFile(file)`: nil when the file cannot be read or
parsed. -/
def publicKeyFile (k : Keys) (file : GoString) : Option AuthMethod :=
  match k.readFile file with
  | .error _ => none
  | .ok buffer =>
    match k.parsePrivateKey buffer with
    | .error _ => none
    | .ok key => some (.publicKeys key)

/-- Lines 179-219 of `connectToServer`: the choice of the authentication method
and the terminal dialogue, up to the `ssh.ClientConfig` literal. -/
def sshConfig (k : Keys) (t : Terminal) (certificate userp : GoString) :
    Outcome ClientConfig × List ConnEvent :=
  let promptLogin : Bool := if certificate ≠ [] ∧ userp ≠ [] then false else true
  if promptLogin then
    let asked : GoString × List ConnEvent :=
      if userp ≠ [] then (userp, [])
      else (t.scanUser, [.print (str "User: "), .scanf])
    let events := asked.2 ++ [.print (str "Password: "), .readPassword, .println]
    match t.readPassword with
    | .error _ => (.panicked, events)
    | .ok bytePassword =>
      (.returned { user := asked.1, auth := [some (.password bytePassword)],
                   ignoreHostKey := false }, events)
  else
    (.returned { user := userp, auth := [publicKeyFile k certificate],
                 ignoreHostKey := false }, [])

/-- How `connectToServer` ended and what it did. -/
structure ConnResult where
  outcome : Outcome (Option Conn × Option Sess × Option GoError)
  trace : List ConnEvent
deriving DecidableEq, Repr

/-- The function `connectToServer(host, certificate, userp)`.  A panic inside
`ssh.Dial` unwinds `connectToServer` too. -/
def connectToServer (k : Keys) (t : Terminal) (n : Network)
    (host certificate userp : GoString) : ConnResult :=
  match sshConfig k t certificate userp with
  | (.returned cfg0, events) =>
    let cfg : ClientConfig := { cfg0 with ignoreHostKey := true }
    let addr := host ++ str ":22"
    match sshDial n addr cfg with
    | .failed e =>
      { outcome := .returned (none, none, some e)
        trace := events ++ [.dial addr cfg (.failed e)] }
    | .nilMethod c =>
      { outcome := .panicked
        trace := events ++ [.dial addr cfg (.nilMethod c)] }
    | .client client =>
      match n.newSession client with
      | .error e =>
        { outcome := .returned (none, none, some e)
          trace := events ++
            [.dial addr cfg (.client client), .clientNewSession client, .clientClose client] }
      | .ok session =>
        { outcome := .returned (some client, some session, none)
          trace := events ++ [.dial addr cfg (.client client), .clientNewSession client] }
  | (.panicked, events) => { outcome := .panicked, trace := events }
  | (.exited, events) => { outcome := .exited, trace := events }
  | (.blocked, events) => { outcome := .blocked, trace := events }

/-- The transport connections that are open after the events of a trace, given
those open before: a dial that returns a client opens one, and so does a dial
that panics with the connection made; `client.Close()` closes one. -/
def openConns : List ConnEvent → List Conn → List Conn
  | [], opened => opened
  | .dial _ _ (.client c) :: t, opened => openConns t (opened ++ [c])
  | .dial _ _ (.nilMethod c) :: t, opened => openConns t (opened ++ [c])
  | .clientClose c :: t, opened => openConns t (opened.erase c)
  | _ :: t, opened => openConns t opened

/-- The configuration handed to the first `ssh.Dial` of a trace. -/
def dialedConfig : List ConnEvent → Option ClientConfig
  | [] => none
  | .dial _ cfg _ :: _ => some cfg
  | _ :: t => dialedConfig t

/-- The connections obtained from successful dials, in order. -/
def dialed : List ConnEvent → List Conn
  | [] => []
  | .dial _ _ (.client c) :: t => c :: dialed t
  | _ :: t => dialed t

/-- The terminal events of a trace: prompts and reads. -/
def terminalEvents (trace : List ConnEvent) : List ConnEvent :=
  trace.filter fun e =>
    match e with
    | .print _ => true
    | .scanf => true
    | .readPassword => true
    | .println => true
    | _ => false

/-! ## Sample environments -/

/-- A host on which every session opens and `echo <text>` prints the text and
a newline; any other command prints nothing and complains on standard error. -/
def echoHost : Host Nat where
  newSession := fun s => (none, s)
  run := fun cmd s =>
    if cmd.take 5 = str "echo " then
      ({ stdout := cmd.drop 5 ++ str "\n", stderr := [], err := none }, s + 1)
    else
      ({ stdout := [], stderr := cmd ++ str ": command not found\n",
         err := some ⟨str "Process exited with status 127"⟩ }, s + 1)

/-- A key store holding one key file, `id_rsa`. -/
def oneKey : Keys where
  readFile := fun f => if f = str "id_rsa" then .ok (str "PEM") else .error ⟨str "no such file"⟩
  parsePrivateKey := fun b => if b = str "PEM" then .ok (str "signer") else .error ⟨str "no key found"⟩

/-- A terminal at which `bob` and then `secret` are typed. -/
def typing : Terminal where
  scanUser := str "bob"
  readPassword := .ok (str "secret")

/-- A terminal from which no password can be read. -/
def noTty : Terminal where
  scanUser := str "bob"
  readPassword := .error ⟨str "inappropriate ioctl for device"⟩

/-- A network on which the dial succeeds and the session does not open. -/
def noSessionNet : Network where
  transport := fun _ => .wantsAuth 7
  authenticate := fun _ _ => none
  newSession := fun _ => .error ⟨str "ssh: rejected"⟩

/-- A network on which the server asks for authentication and accepts what it
is offered, and the session opens. -/
def goodNet : Network where
  transport := fun _ => .wantsAuth 7
  authenticate := fun _ _ => none
  newSession := fun _ => .ok 1

/-- A network on which nothing answers. -/
def deadNet : Network where
  transport := fun _ => .failed ⟨str "dial tcp: connection refused"⟩
  authenticate := fun _ _ => none
  newSession := fun _ => .error ⟨str "unreachable"⟩

/-! ## Sequential runs, as the specification words them -/

/-- Running commands one after another, each on a session of its own: the
outputs in order and the state of the host afterwards. -/
def runAll {σ : Type} (h : Host σ) : List GoString → σ → List CmdOutput × σ
  | [], s => ([], s)
  | c :: cs, s =>
    let out := h.run c (h.newSession s).2
    let more := runAll h cs out.2
    (out.1 :: more.1, more.2)

/-- The effects of running one command in `executeBatch`, in program order. -/
def batchEvents (cmds : List GoString) : List Event :=
  cmds.flatMap fun c => [.newSession, .run c, .log (str "Executing: " ++ c)]

/-- The effects of dispatching the upload tasks, in program order. -/
def uploadEvents (base : GoString → GoString) (paths : List GoString) : List Event :=
  paths.flatMap fun p => [.log (str "Uploading " ++ base p), .spawn p]

/-! ## Lemmas -/

theorem str_skip : str "//" = [47, 47] := by decide

theorem sliceTo_two (l : GoString) (h : 2 ≤ l.length) : sliceTo l 2 = some (l.take 2) := by
  simp [sliceTo, h]

theorem take_two_skip (l : GoString) (h : 2 ≤ l.length) :
    l.take 2 = str "//" ↔ hasSkipMark l = true := by
  match l, h with
  | a :: b :: rest, _ =>
    unfold hasSkipMark
    rw [str_skip]
    simp [List.isPrefixOf]
    constructor <;> rintro ⟨rfl, rfl⟩ <;> exact ⟨rfl, rfl⟩

theorem qualifying_cons_skip (l : GoString) (ls : List GoString) (h : hasSkipMark l = true) :
    qualifying (l :: ls) = qualifying ls := by
  simp [qualifying, h]

theorem qualifying_cons_keep (l : GoString) (ls : List GoString) (h : ¬ hasSkipMark l = true) :
    qualifying (l :: ls) = l :: qualifying ls := by
  simp [qualifying, h]

theorem batchLoop_ok {σ : Type} (h : Host σ) (hopen : ∀ s, (h.newSession s).1 = none) :
    ∀ (lines : List GoString) (st : BatchState σ), (∀ l ∈ lines, 2 ≤ l.length) →
      batchLoop h lines st =
        (.returned (),
          { host := (runAll h (qualifying lines) st.host).2
            stdoutBuf := st.stdoutBuf ++
              ((runAll h (qualifying lines) st.host).1.map (·.stdout)).flatten
            trace := st.trace ++ batchEvents (qualifying lines) }) := by
  intro lines
  induction lines with
  | nil => intro st _; simp [batchLoop, qualifying, runAll, batchEvents]
  | cons l ls ih =>
    intro st hlen
    have hl : 2 ≤ l.length := hlen l (List.mem_cons_self _ _)
    have hls : ∀ x ∈ ls, 2 ≤ x.length := fun x hx => hlen x (List.mem_cons_of_mem _ hx)
    rw [batchLoop, sliceTo_two l hl]
    by_cases hs : hasSkipMark l = true
    · have ht : l.take 2 = str "//" := (take_two_skip l hl).2 hs
      simp only [ht, if_true]
      rw [ih st hls, qualifying_cons_skip l ls hs]
    · have ht : ¬ l.take 2 = str "//" := fun e => hs ((take_two_skip l hl).1 e)
      simp only [ht, if_false]
      have ho := hopen st.host
      rcases hn : h.newSession st.host with ⟨e, s1⟩
      rw [hn] at ho
      simp only at ho
      subst ho
      simp only
      rw [ih _ hls, qualifying_cons_keep l ls hs]
      simp [runAll, batchEvents, hn, List.append_assoc]


theorem uploadScan_ok (base : GoString → GoString) :
    ∀ (lines : List GoString) (st : UploadState), (∀ l ∈ lines, 2 ≤ l.length) →
      uploadScan base lines st =
        (.returned (),
          { processingFiles := st.processingFiles + (qualifying lines).length
            trace := st.trace ++ uploadEvents base (qualifying lines)
            received := st.received }) := by
  intro lines
  induction lines with
  | nil => intro st _; simp [uploadScan, qualifying, uploadEvents]
  | cons l ls ih =>
    intro st hlen
    have hl : 2 ≤ l.length := hlen l (List.mem_cons_self _ _)
    have hls : ∀ x ∈ ls, 2 ≤ x.length := fun x hx => hlen x (List.mem_cons_of_mem _ hx)
    rw [uploadScan, sliceTo_two l hl]
    by_cases hs : hasSkipMark l = true
    · have ht : l.take 2 = str "//" := (take_two_skip l hl).2 hs
      simp only [ht, if_true]
      rw [ih st hls, qualifying_cons_skip l ls hs]
    · have ht : ¬ l.take 2 = str "//" := fun e => hs ((take_two_skip l hl).1 e)
      simp only [ht, if_false]
      rw [ih _ hls, qualifying_cons_keep l ls hs]
      simp [uploadEvents, List.append_assoc]
      omega

theorem spawned_append (a b : List Event) : spawned (a ++ b) = spawned a ++ spawned b := by
  induction a with
  | nil => rfl
  | cons e t ih => cases e <;> simp [spawned, ih]

theorem ran_append (a b : List Event) : ran (a ++ b) = ran a ++ ran b := by
  induction a with
  | nil => rfl
  | cons e t ih => cases e <;> simp [ran, ih]

theorem spawned_uploadEvents (base : GoString → GoString) (paths : List GoString) :
    spawned (uploadEvents base paths) = paths := by
  induction paths with
  | nil => rfl
  | cons p ps ih =>
    have : uploadEvents base (p :: ps) =
        [.log (str "Uploading " ++ base p), .spawn p] ++ uploadEvents base ps := by
      simp [uploadEvents]
    rw [this, spawned_append, ih]
    rfl

theorem ran_batchEvents (cmds : List GoString) : ran (batchEvents cmds) = cmds := by
  induction cmds with
  | nil => rfl
  | cons c cs ih =>
    have : batchEvents (c :: cs) =
        [.newSession, .run c, .log (str "Executing: " ++ c)] ++ batchEvents cs := by
      simp [batchEvents]
    rw [this, ran_append, ih]
    rfl

/-- The receive loop only logs: it dispatches nothing. -/
theorem spawned_receiveLoop :
    ∀ (arrivals : List GoString) (st : UploadState),
      spawned (receiveLoop arrivals st).2.trace = spawned st.trace := by
  intro arrivals
  induction arrivals with
  | nil => intro st; rfl
  | cons m ms ih =>
    intro st
    rw [receiveLoop]
    simp only
    split
    · simp [spawned_append, spawned]
    · rw [ih]; simp [spawned_append, spawned]

/-- With a counter that is not positive the receive loop of the model never
leaves: every message is taken and the loop then waits for the next one. -/
theorem receiveLoop_nonpos :
    ∀ (arrivals : List GoString) (st : UploadState), st.processingFiles ≤ 0 →
      (receiveLoop arrivals st).1 = .blocked := by
  intro arrivals
  induction arrivals with
  | nil => intro st _; rfl
  | cons m ms ih =>
    intro st hst
    rw [receiveLoop]
    simp only
    have hne : ¬ st.processingFiles - 1 = 0 := by omega
    rw [if_neg hne]
    exact ih _ (by simp only; omega)

/-- With a positive counter `n` and at least `n` messages to come, the receive
loop returns, having received exactly the first `n` of them. -/
theorem receiveLoop_returns :
    ∀ (arrivals : List GoString) (st : UploadState) (n : Nat), 0 < n →
      st.processingFiles = n → n ≤ arrivals.length →
      (receiveLoop arrivals st).1 = .returned () ∧
      (receiveLoop arrivals st).2.received = st.received ++ arrivals.take n := by
  intro arrivals
  induction arrivals with
  | nil => intro st n hn _ hlen; simp at hlen; omega
  | cons m ms ih =>
    intro st n hn hst hlen
    rw [receiveLoop]
    simp only
    by_cases h1 : st.processingFiles - 1 = 0
    · rw [if_pos h1]
      have : n = 1 := by omega
      subst this
      simp
    · rw [if_neg h1]
      have hn2 : 0 < n - 1 := by omega
      have := ih { processingFiles := st.processingFiles - 1, trace := st.trace ++ [.log m],
                   received := st.received ++ [m] } (n - 1) hn2 (by simp only; omega)
                 (by simp at hlen; omega)
      refine ⟨this.1, ?_⟩
      rw [this.2]
      obtain ⟨k, rfl⟩ : ∃ k, n = k + 1 := ⟨n - 1, by omega⟩
      simp


/-- Once the manifest is scanned, `uploadFiles` ends the way its receive loop
ends. -/
theorem uploadFiles_scanned (base : GoString → GoString) (scan : Scan)
    (arrivals : List GoString) (hlen : ∀ l ∈ scan.lines, 2 ≤ l.length) :
    ∃ o st1,
      receiveLoop arrivals
        { processingFiles := ((qualifying scan.lines).length : Int)
          trace := [.sftpNewClient] ++ uploadEvents base (qualifying scan.lines)
          received := [] } = (o, st1) ∧
      (uploadFiles base (.ok scan) none arrivals).trace = st1.trace ∧
      (uploadFiles base (.ok scan) none arrivals).received = st1.received ∧
      ((uploadFiles base (.ok scan) none arrivals).outcome = .returned (str "ok", none) ↔
        o = .returned ()) ∧
      ((uploadFiles base (.ok scan) none arrivals).outcome = .blocked ↔ o = .blocked) := by
  simp only [uploadFiles]
  rw [uploadScan_ok base scan.lines _ hlen]
  simp only [zero_add]
  rcases receiveLoop arrivals _ with ⟨o, st1⟩
  refine ⟨o, st1, rfl, ?_⟩
  cases o <;> simp

/-! ## The claims -/

/-- C2, as the code has it: for every manifest that is opened and whose lines
all have at least two bytes, `uploadFiles` (once the SFTP client exists)
dispatches one upload task for each line that does not start with `//` and for
no other line, and `executeBatch` (every session opening) runs each such line
once and no other line, both in manifest order. -/
theorem manifest_lines_processed_once {σ : Type} (base : GoString → GoString) (h : Host σ)
    (scan : Scan) (arrivals : List GoString) (s0 : σ)
    (hlen : ∀ l ∈ scan.lines, 2 ≤ l.length)
    (hopen : ∀ s, (h.newSession s).1 = none) :
    spawned (uploadFiles base (.ok scan) none arrivals).trace = qualifying scan.lines ∧
    ran (executeBatch h (.ok scan) s0).trace = qualifying scan.lines := by
  constructor
  · obtain ⟨o, st1, hr, ht, -, -, -⟩ := uploadFiles_scanned base scan arrivals hlen
    have hs := spawned_receiveLoop arrivals
      { processingFiles := ((qualifying scan.lines).length : Int)
        trace := [.sftpNewClient] ++ uploadEvents base (qualifying scan.lines)
        received := [] }
    rw [hr] at hs
    rw [ht, hs, spawned_append, spawned_uploadEvents]
    rfl
  · simp only [executeBatch]
    rw [batchLoop_ok h hopen scan.lines _ hlen]
    cases scan.err <;> simp [ran_batchEvents]

/-- C2 witness: the manifest `a.txt`, `//skip.txt`, `b.txt` leads to exactly
`a.txt` and `b.txt` being processed, by the uploader and by the executor. -/
theorem manifest_lines_processed_once_witness :
    qualifying [str "a.txt", str "//skip.txt", str "b.txt"] = [str "a.txt", str "b.txt"] ∧
    spawned (uploadFiles unixBase (.ok ⟨[str "a.txt", str "//skip.txt", str "b.txt"], none⟩)
      none [str "b.txt Uploaded!!!", str "a.txt Uploaded!!!"]).trace =
        qualifying [str "a.txt", str "//skip.txt", str "b.txt"] ∧
    ran (executeBatch echoHost (.ok ⟨[str "a.txt", str "//skip.txt", str "b.txt"], none⟩)
      0).trace = qualifying [str "a.txt", str "//skip.txt", str "b.txt"] :=
  ⟨by decide,
   manifest_lines_processed_once unixBase echoHost
     ⟨[str "a.txt", str "//skip.txt", str "b.txt"], none⟩
     [str "b.txt Uploaded!!!", str "a.txt Uploaded!!!"] 0 (by decide) (fun _ => rfl)⟩

/-- C2 fails as stated: in the manifest `a.txt`, empty line, `b.txt` no line
starts with `//`, yet both scans stop with a slice-bounds panic at the empty
line; `b.txt` is never processed. -/
theorem short_line_stops_the_scan :
    qualifying [str "a.txt", str "", str "b.txt"] = [str "a.txt", str "", str "b.txt"] ∧
    (uploadFiles unixBase (.ok ⟨[str "a.txt", str "", str "b.txt"], none⟩) none []).outcome
      = .panicked ∧
    spawned (uploadFiles unixBase (.ok ⟨[str "a.txt", str "", str "b.txt"], none⟩) none
      []).trace = [str "a.txt"] ∧
    (executeBatch echoHost (.ok ⟨[str "a.txt", str "", str "b.txt"], none⟩) 0).outcome
      = .panicked ∧
    ran (executeBatch echoHost (.ok ⟨[str "a.txt", str "", str "b.txt"], none⟩) 0).trace
      = [str "a.txt"] := by
  decide

/-- C3 fails on the code: with no qualifying line (an empty manifest, or one
whose only line is skipped) no task is dispatched, so no message ever arrives,
and `uploadFiles` does not return after zero messages: the receive loop tests
the counter only after a receive, and waits for a message that nobody sends. -/
theorem uploadFiles_blocks_without_entries :
    uploadFiles unixBase (.ok ⟨[], none⟩) none [] =
      { outcome := .blocked, trace := [.sftpNewClient], received := [] } ∧
    uploadFiles unixBase (.ok ⟨[str "//skip.txt"], none⟩) none [] =
      { outcome := .blocked, trace := [.sftpNewClient], received := [] } := by
  decide

/-- The part of C3 the code keeps: with `n ≥ 1` qualifying lines and at least
`n` messages arriving, in whatever order, `uploadFiles` returns `("ok", nil)`
having received exactly the first `n` messages. -/
theorem uploadFiles_returns_after (base : GoString → GoString) (scan : Scan)
    (arrivals : List GoString) (hlen : ∀ l ∈ scan.lines, 2 ≤ l.length)
    (hpos : 0 < (qualifying scan.lines).length)
    (harr : (qualifying scan.lines).length ≤ arrivals.length) :
    (uploadFiles base (.ok scan) none arrivals).outcome = .returned (str "ok", none) ∧
    (uploadFiles base (.ok scan) none arrivals).received =
      arrivals.take (qualifying scan.lines).length := by
  obtain ⟨o, st1, hr, -, hrec, hret, -⟩ := uploadFiles_scanned base scan arrivals hlen
  have := receiveLoop_returns arrivals
    { processingFiles := ((qualifying scan.lines).length : Int)
      trace := [.sftpNewClient] ++ uploadEvents base (qualifying scan.lines)
      received := [] } (qualifying scan.lines).length hpos rfl harr
  rw [hr] at this
  exact ⟨hret.2 this.1, by rw [hrec, this.2]; rfl⟩

/-- Two qualifying lines, three messages on offer: `uploadFiles` returns after
the first two. -/
theorem uploadFiles_returns_after_witness :
    (uploadFiles unixBase (.ok ⟨[str "a.txt", str "//skip.txt", str "b.txt"], none⟩) none
      [str "b.txt Uploaded!!!", str "a.txt Uploaded!!!", str "late"]).outcome =
        .returned (str "ok", none) ∧
    (uploadFiles unixBase (.ok ⟨[str "a.txt", str "//skip.txt", str "b.txt"], none⟩) none
      [str "b.txt Uploaded!!!", str "a.txt Uploaded!!!", str "late"]).received =
        [str "b.txt Uploaded!!!", str "a.txt Uploaded!!!", str "late"].take
          (qualifying [str "a.txt", str "//skip.txt", str "b.txt"]).length :=
  uploadFiles_returns_after unixBase ⟨[str "a.txt", str "//skip.txt", str "b.txt"], none⟩
    [str "b.txt Uploaded!!!", str "a.txt Uploaded!!!", str "late"]
    (by decide) (by decide) (by decide)

/-- C4: for every batch manifest that is read without error and whose lines
all have at least two bytes, every session opening, `executeBatch` hands to
`session.Run` exactly the lines that do not start with `//`, in manifest
order, and returns, with a nil error, the outputs captured from those runs
concatenated in the same order. -/
theorem executeBatch_in_order {σ : Type} (h : Host σ) (scan : Scan) (s0 : σ)
    (hread : scan.err = none)
    (hlen : ∀ l ∈ scan.lines, 2 ≤ l.length)
    (hopen : ∀ s, (h.newSession s).1 = none) :
    ran (executeBatch h (.ok scan) s0).trace = qualifying scan.lines ∧
    (executeBatch h (.ok scan) s0).outcome =
      .returned (((runAll h (qualifying scan.lines) s0).1.map (·.stdout)).flatten, none) := by
  simp only [executeBatch]
  rw [batchLoop_ok h hopen scan.lines _ hlen, hread]
  simp [ran_batchEvents]

/-- C4 witness: `echo one` then `echo two` returns the output of the first
followed by the output of the second. -/
theorem executeBatch_in_order_witness :
    ((runAll echoHost (qualifying [str "echo one", str "echo two"]) 0).1.map
      (·.stdout)).flatten = str "one\ntwo\n" ∧
    ran (executeBatch echoHost (.ok ⟨[str "echo one", str "echo two"], none⟩) 0).trace =
      qualifying [str "echo one", str "echo two"] ∧
    (executeBatch echoHost (.ok ⟨[str "echo one", str "echo two"], none⟩) 0).outcome =
      .returned (((runAll echoHost (qualifying [str "echo one", str "echo two"]) 0).1.map
        (·.stdout)).flatten, none) :=
  ⟨by decide,
   executeBatch_in_order echoHost ⟨[str "echo one", str "echo two"], none⟩ 0 rfl
     (by decide) (fun _ => rfl)⟩

/-- C5: when the manifest cannot be opened, with error `e`, `uploadFiles` and
`executeBatch` each return `("nok", e)`; nothing was done before: no SFTP
client, no task, no session, no command, and the remote host is untouched. -/
theorem manifest_open_failure {σ : Type} (base : GoString → GoString) (h : Host σ)
    (e : GoError) (sftpErr : Option GoError) (arrivals : List GoString) (s0 : σ) :
    uploadFiles base (.error e) sftpErr arrivals =
      { outcome := .returned (str "nok", some e), trace := [], received := [] } ∧
    executeBatch h (.error e) s0 =
      { outcome := .returned (str "nok", some e), trace := [], host := s0 } :=
  ⟨rfl, rfl⟩


/-- Every read into a full-size buffer is followed by a write of the whole
buffer: the remote file grows by `bufSize` bytes per read, whatever was read. -/
theorem copyLoop_length :
    ∀ (reads : List GoString) (buf written : GoString), buf.length = bufSize →
      (∀ c ∈ reads, 0 < c.length ∧ c.length ≤ bufSize) →
      (copyLoop reads buf written).length = written.length + bufSize * reads.length := by
  intro reads
  induction reads with
  | nil => intro buf written _ _; simp [copyLoop]
  | cons c cs ih =>
    intro buf written hbuf hc
    have h1 := hc c (List.mem_cons_self _ _)
    have hne : ¬ c.length = 0 := by omega
    rw [copyLoop, if_neg hne]
    simp only
    rw [ih _ _ (by simp [hbuf]; omega) (fun x hx => hc x (List.mem_cons_of_mem _ hx))]
    simp [hbuf, Nat.mul_add]
    omega

/-- C1 fails on the code: a local file holding the five bytes `hello`, read in
one chunk, arrives as 32768 bytes, `hello` followed by 32763 zero bytes,
because the loop writes `buf` and not `buf[:n]`. -/
theorem upload_writes_whole_buffer :
    (uploadTask unixBase (str "hello.txt") (.ok [str "hello"]) none).remote =
      some (str "hello" ++ List.replicate 32763 0) ∧
    (uploadTask unixBase (str "hello.txt") (.ok [str "hello"]) none).remote ≠
      some (str "hello") := by
  have h5 : (str "hello").length = 5 := by decide
  have hc : copyLoop [str "hello"] freshBuf [] = str "hello" ++ freshBuf.drop 5 := by
    rw [copyLoop, if_neg (by rw [h5]; decide), copyLoop, h5, List.nil_append]
  have hd : freshBuf.drop 5 = List.replicate 32763 0 := by
    unfold freshBuf bufSize
    rw [List.drop_replicate]
  have hr : (uploadTask unixBase (str "hello.txt") (.ok [str "hello"]) none).remote =
      some (str "hello" ++ List.replicate 32763 0) := by
    show some (copyLoop [str "hello"] freshBuf []) = _
    rw [hc, hd]
  refine ⟨hr, ?_⟩
  rw [hr]
  intro hEq
  have hlen := congrArg List.length (Option.some.inj hEq)
  rw [List.length_append, List.length_replicate, h5] at hlen
  omega

/-- C10 fails on the code: the task for `missing.txt`, whose local file cannot
be opened, sends two messages, the error and then the completion message; with
the manifest `missing.txt`, `b.txt`, `uploadFiles` then returns after these two
messages, before the task for `b.txt` has reported. -/
theorem failed_open_sends_twice :
    (uploadTask unixBase (str "missing.txt")
      (.error ⟨str "open missing.txt: no such file or directory"⟩) none).sends =
      [str "Error: open missing.txt: no such file or directory",
       str "missing.txt Uploaded!!!"] ∧
    (uploadFiles unixBase (.ok ⟨[str "missing.txt", str "b.txt"], none⟩) none
      ((uploadTask unixBase (str "missing.txt")
          (.error ⟨str "open missing.txt: no such file or directory"⟩) none).sends ++
        (uploadTask unixBase (str "b.txt") (.ok []) none).sends)) =
      { outcome := .returned (str "ok", none)
        trace := [.sftpNewClient,
                  .log (str "Uploading missing.txt"), .spawn (str "missing.txt"),
                  .log (str "Uploading b.txt"), .spawn (str "b.txt"),
                  .log (str "Error: open missing.txt: no such file or directory"),
                  .log (str "missing.txt Uploaded!!!")]
        received := [str "Error: open missing.txt: no such file or directory",
                     str "missing.txt Uploaded!!!"] } := by
  decide

/-- C7, as the code has it: `executeBatch` redirects standard output only
(`session.Stdout = &stdoutBuf`).  For a batch manifest that is read without
error and whose lines all have at least two bytes, every session opening, the
string returned is the concatenation, in manifest order, of what the commands
of the qualifying lines wrote to standard output, so it contains everything
each of them wrote to that stream. -/
theorem executeBatch_captures_stdout {σ : Type} (h : Host σ) (scan : Scan) (s0 : σ)
    (hread : scan.err = none)
    (hlen : ∀ l ∈ scan.lines, 2 ≤ l.length)
    (hopen : ∀ s, (h.newSession s).1 = none) :
    ∃ res, (executeBatch h (.ok scan) s0).outcome = .returned (res, none) ∧
      res = ((runAll h (qualifying scan.lines) s0).1.map (fun out => out.stdout)).flatten ∧
      (∀ out ∈ (runAll h (qualifying scan.lines) s0).1, out.stdout <:+: res) := by
  refine ⟨((runAll h (qualifying scan.lines) s0).1.map (·.stdout)).flatten, ?_, rfl, ?_⟩
  · simp only [executeBatch]
    rw [batchLoop_ok h hopen scan.lines _ hlen, hread]
    simp
  · intro out hout
    exact List.infix_of_mem_flatten (List.mem_map_of_mem _ hout)

/-- C7 witness: `echo one` and a command that only complains on standard
error: the string returned is the output of `echo one` alone. -/
theorem executeBatch_captures_stdout_witness :
    ((runAll echoHost (qualifying [str "echo one", str "ls /nope"]) 0).1.map
        (fun out => out.stdout)).flatten = str "one\n" ∧
    (runAll echoHost (qualifying [str "echo one", str "ls /nope"]) 0).1.map (·.stderr) =
      [str "", str "ls /nope: command not found\n"] ∧
    ∃ res, (executeBatch echoHost (.ok ⟨[str "echo one", str "ls /nope"], none⟩) 0).outcome
        = .returned (res, none) ∧
      res = ((runAll echoHost (qualifying [str "echo one", str "ls /nope"]) 0).1.map
        (fun out => out.stdout)).flatten ∧
      (∀ out ∈ (runAll echoHost (qualifying [str "echo one", str "ls /nope"]) 0).1,
        out.stdout <:+: res) :=
  ⟨by decide, by decide,
   executeBatch_captures_stdout echoHost ⟨[str "echo one", str "ls /nope"], none⟩ 0 rfl
     (by decide) (fun _ => rfl)⟩

/-- C7 fails as stated: the command `ls /nope` writes a complaint to standard
error and nothing to standard output; `executeBatch` returns the empty string,
which does not contain the complaint. -/
theorem stderr_not_captured :
    ∃ out ∈ (runAll echoHost [str "ls /nope"] 0).1,
      out.stderr = str "ls /nope: command not found\n" ∧
      (executeBatch echoHost (.ok ⟨[str "ls /nope"], none⟩) 0).outcome = .returned ([], none) ∧
      ¬ (out.stderr <:+: ([] : GoString)) := by
  refine ⟨⟨[], str "ls /nope: command not found\n",
    some ⟨str "Process exited with status 127"⟩⟩, by decide, rfl, by decide, ?_⟩
  simp only [List.infix_nil]
  decide

/-- C8 fails on the code: for the batch manifest `echo one` the effects are the
session, then the run of the command, and only then the log line
`Executing: echo one`. -/
theorem log_follows_run :
    (executeBatch echoHost (.ok ⟨[str "echo one"], none⟩) 0).trace =
      [.newSession, .run (str "echo one"), .log (str "Executing: echo one")] := by
  decide


theorem sshConfig_key (k : Keys) (t : Terminal) (certificate userp : GoString)
    (hk : certificate ≠ [] ∧ userp ≠ []) :
    sshConfig k t certificate userp =
      (.returned { user := userp, auth := [publicKeyFile k certificate],
                   ignoreHostKey := false }, []) := by
  unfold sshConfig
  rw [if_pos hk]
  rfl

theorem sshConfig_prompt (k : Keys) (t : Terminal) (certificate userp : GoString)
    (hk : ¬ (certificate ≠ [] ∧ userp ≠ [])) :
    sshConfig k t certificate userp =
      ((match t.readPassword with
        | .error _ => .panicked
        | .ok pw =>
          .returned { user := if userp = [] then t.scanUser else userp
                      auth := [some (.password pw)], ignoreHostKey := false }),
       (if userp = [] then [.print (str "User: "), .scanf] else []) ++
         [.print (str "Password: "), .readPassword, .println]) := by
  unfold sshConfig
  rw [if_neg hk]
  by_cases hu : userp = []
  · cases t.readPassword <;> simp [hu]
  · cases t.readPassword <;> simp [hu]

theorem sshConfig_cases (k : Keys) (t : Terminal) (certificate userp : GoString) :
    (∃ cfg, (sshConfig k t certificate userp).1 = .returned cfg) ∨
      (sshConfig k t certificate userp).1 = .panicked := by
  by_cases hk : certificate ≠ [] ∧ userp ≠ []
  · rw [sshConfig_key k t certificate userp hk]
    exact Or.inl ⟨_, rfl⟩
  · rw [sshConfig_prompt k t certificate userp hk]
    cases t.readPassword
    · exact Or.inr rfl
    · exact Or.inl ⟨_, rfl⟩

theorem sshConfig_events (k : Keys) (t : Terminal) (certificate userp : GoString) :
    (sshConfig k t certificate userp).2 =
      if certificate ≠ [] ∧ userp ≠ [] then []
      else (if userp = [] then [.print (str "User: "), .scanf] else []) ++
        [.print (str "Password: "), .readPassword, .println] := by
  by_cases hk : certificate ≠ [] ∧ userp ≠ []
  · rw [sshConfig_key k t certificate userp hk, if_pos hk]
  · rw [sshConfig_prompt k t certificate userp hk, if_neg hk]

/-- The terminal dialogue opens no connection and dials nothing. -/
theorem openConns_sshConfig (k : Keys) (t : Terminal) (certificate userp : GoString)
    (rest : List ConnEvent) (opened : List Conn) :
    openConns ((sshConfig k t certificate userp).2 ++ rest) opened = openConns rest opened ∧
    dialed ((sshConfig k t certificate userp).2 ++ rest) = dialed rest ∧
    dialedConfig ((sshConfig k t certificate userp).2 ++ rest) = dialedConfig rest ∧
    terminalEvents ((sshConfig k t certificate userp).2 ++ rest) =
      (sshConfig k t certificate userp).2 ++ terminalEvents rest := by
  rw [sshConfig_events]
  split_ifs <;> simp [openConns, dialed, dialedConfig, terminalEvents]


/-- What `connectToServer` does once the terminal dialogue has produced the
configuration `cfg0`, by the way `ssh.Dial` and `client.NewSession` end. -/
theorem connectToServer_of_config (k : Keys) (t : Terminal) (n : Network)
    (host certificate userp : GoString) (cfg0 : ClientConfig)
    (hcfg : sshConfig k t certificate userp =
      (.returned cfg0, (sshConfig k t certificate userp).2)) :
    dialedConfig (connectToServer k t n host certificate userp).trace =
      some { cfg0 with ignoreHostKey := true } ∧
    (∀ e, sshDial n (host ++ str ":22") { cfg0 with ignoreHostKey := true } = .failed e →
      (connectToServer k t n host certificate userp).outcome = .returned (none, none, some e) ∧
      dialed (connectToServer k t n host certificate userp).trace = [] ∧
      openConns (connectToServer k t n host certificate userp).trace [] = []) ∧
    (∀ c e, sshDial n (host ++ str ":22") { cfg0 with ignoreHostKey := true } = .client c →
      n.newSession c = .error e →
      (connectToServer k t n host certificate userp).outcome = .returned (none, none, some e) ∧
      dialed (connectToServer k t n host certificate userp).trace = [c] ∧
      (connectToServer k t n host certificate userp).trace.getLast? = some (.clientClose c) ∧
      openConns (connectToServer k t n host certificate userp).trace [] = []) ∧
    (∀ c s, sshDial n (host ++ str ":22") { cfg0 with ignoreHostKey := true } = .client c →
      n.newSession c = .ok s →
      (connectToServer k t n host certificate userp).outcome =
        .returned (some c, some s, none) ∧
      openConns (connectToServer k t n host certificate userp).trace [] = [c]) ∧
    (∀ c, sshDial n (host ++ str ":22") { cfg0 with ignoreHostKey := true } = .nilMethod c →
      (connectToServer k t n host certificate userp).outcome = .panicked) := by
  have hev := fun rest => openConns_sshConfig k t certificate userp rest []
  refine ⟨?_, ?_, ?_, ?_, ?_⟩
  · unfold connectToServer
    rw [hcfg]
    simp only
    cases hd : sshDial n (host ++ str ":22") { cfg0 with ignoreHostKey := true } with
    | failed e => simp [(hev _).2.2.1, dialedConfig]
    | nilMethod c => simp [(hev _).2.2.1, dialedConfig]
    | client c =>
      simp only
      cases hs : n.newSession c <;> simp [(hev _).2.2.1, dialedConfig]
  · intro e hd
    unfold connectToServer
    rw [hcfg]
    simp only [hd]
    refine ⟨trivial, ?_, ?_⟩
    · simp [(hev _).2.1, dialed]
    · simp [(hev _).1, openConns]
  · intro c e hd hs
    unfold connectToServer
    rw [hcfg]
    simp only [hd, hs]
    refine ⟨trivial, ?_, ?_, ?_⟩
    · simp [(hev _).2.1, dialed]
    · simp
    · simp [(hev _).1, openConns]
  · intro c s0 hd hs
    unfold connectToServer
    rw [hcfg]
    simp only [hd, hs]
    refine ⟨trivial, ?_⟩
    simp [(hev _).1, openConns]
  · intro c hd
    unfold connectToServer
    rw [hcfg]
    simp only [hd]

/-- When no password has to be read, or the password is read, the terminal
dialogue ends with a configuration. -/
theorem sshConfig_returns (k : Keys) (t : Terminal) (certificate userp : GoString)
    (hterm : (certificate ≠ [] ∧ userp ≠ []) ∨ ∃ pw, t.readPassword = .ok pw) :
    ∃ cfg0, sshConfig k t certificate userp =
      (.returned cfg0, (sshConfig k t certificate userp).2) := by
  by_cases hk : certificate ≠ [] ∧ userp ≠ []
  · exact ⟨_, by rw [sshConfig_key k t certificate userp hk]⟩
  · rcases hterm with hk2 | ⟨pw, hpw⟩
    · exact absurd hk2 hk
    · exact ⟨_, by rw [sshConfig_prompt k t certificate userp hk, hpw]⟩

/-- Whenever `connectToServer` returns, it returns a client and a session with
a nil error, or no handle with a non-nil error and no connection open. -/
theorem connectToServer_returned (k : Keys) (t : Terminal) (n : Network)
    (host certificate userp : GoString)
    (r : Option Conn × Option Sess × Option GoError)
    (hr : (connectToServer k t n host certificate userp).outcome = .returned r) :
    (∃ c s, r = (some c, some s, none)) ∨
    (∃ e, r = (none, none, some e) ∧
      openConns (connectToServer k t n host certificate userp).trace [] = []) := by
  rcases sshConfig_cases k t certificate userp with ⟨cfg0, hc⟩ | hc
  · have hcfg : sshConfig k t certificate userp =
        (.returned cfg0, (sshConfig k t certificate userp).2) := by
      rw [← hc]
    obtain ⟨-, h1, h2, h3, h4⟩ := connectToServer_of_config k t n host certificate userp cfg0 hcfg
    cases hd : sshDial n (host ++ str ":22") { cfg0 with ignoreHostKey := true } with
    | failed e =>
      obtain ⟨ho, -, hop⟩ := h1 e hd
      rw [ho] at hr
      cases hr
      exact Or.inr ⟨e, rfl, hop⟩
    | nilMethod c =>
      rw [h4 c hd] at hr
      cases hr
    | client c =>
      cases hs : n.newSession c with
      | error e =>
        obtain ⟨ho, -, -, hop⟩ := h2 c e hd hs
        rw [ho] at hr
        cases hr
        exact Or.inr ⟨e, rfl, hop⟩
      | ok s0 =>
        obtain ⟨ho, -⟩ := h3 c s0 hd hs
        rw [ho] at hr
        cases hr
        exact Or.inl ⟨c, s0, rfl⟩
  · have hcfg : sshConfig k t certificate userp =
        (.panicked, (sshConfig k t certificate userp).2) := by
      rw [← hc]
    unfold connectToServer at hr
    rw [hcfg] at hr
    cases hr


/-- The terminal events of `connectToServer` are those of the dialogue that
builds the configuration. -/
theorem terminalEvents_connectToServer (k : Keys) (t : Terminal) (n : Network)
    (host certificate userp : GoString) :
    terminalEvents (connectToServer k t n host certificate userp).trace =
      (sshConfig k t certificate userp).2 := by
  have hev := fun rest => openConns_sshConfig k t certificate userp rest []
  unfold connectToServer
  rcases hcfg : sshConfig k t certificate userp with ⟨o, events⟩
  rw [hcfg] at hev
  simp only at hev
  cases o with
  | returned cfg =>
    simp only
    cases hd : sshDial n (host ++ str ":22") { cfg with ignoreHostKey := true } with
    | failed e => rw [(hev _).2.2.2]; simp [terminalEvents]
    | nilMethod c => rw [(hev _).2.2.2]; simp [terminalEvents]
    | client c =>
      simp only
      cases hs : n.newSession c <;> simp only <;> rw [(hev _).2.2.2] <;> simp [terminalEvents]
  | panicked =>
    have := (hev []).2.2.2
    simp only [List.append_nil] at this
    simp only
    rw [this]
    simp [terminalEvents]
  | exited =>
    have := (hev []).2.2.2
    simp only [List.append_nil] at this
    simp only
    rw [this]
    simp [terminalEvents]
  | blocked =>
    have := (hev []).2.2.2
    simp only [List.append_nil] at this
    simp only
    rw [this]
    simp [terminalEvents]

/-- With a method in the first entry of `config.Auth`, `ssh.Dial` returns. -/
theorem sshDial_returns (n : Network) (addr : GoString) (cfg : ClientConfig)
    (m : AuthMethod) (rest : List (Option AuthMethod)) (hauth : cfg.auth = some m :: rest) :
    (∃ e, sshDial n addr cfg = .failed e) ∨ (∃ c, sshDial n addr cfg = .client c) := by
  unfold sshDial
  cases n.transport addr with
  | failed e => exact Or.inl ⟨e, rfl⟩
  | ready c => exact Or.inr ⟨c, rfl⟩
  | wantsAuth c =>
    simp only [hauth]
    cases n.authenticate c cfg with
    | some e => exact Or.inl ⟨e, rfl⟩
    | none => exact Or.inr ⟨c, rfl⟩

/-- With a method in the first entry of `config.Auth`, `connectToServer`
returns once the configuration is built. -/
theorem connectToServer_returns (k : Keys) (t : Terminal) (n : Network)
    (host certificate userp : GoString) (cfg0 : ClientConfig)
    (hcfg : sshConfig k t certificate userp =
      (.returned cfg0, (sshConfig k t certificate userp).2))
    (m : AuthMethod) (rest : List (Option AuthMethod)) (hauth : cfg0.auth = some m :: rest) :
    ∃ r, (connectToServer k t n host certificate userp).outcome = .returned r := by
  obtain ⟨-, h1, h2, h3, -⟩ := connectToServer_of_config k t n host certificate userp cfg0 hcfg
  rcases sshDial_returns n (host ++ str ":22") { cfg0 with ignoreHostKey := true } m rest hauth
    with ⟨e, hd⟩ | ⟨c, hd⟩
  · exact ⟨_, (h1 e hd).1⟩
  · cases hs : n.newSession c with
    | error e => exact ⟨_, (h2 c e hd hs).1⟩
    | ok s0 => exact ⟨_, (h3 c s0 hd hs).1⟩

/-- C6, as the code has it: when `connectToServer` gets past the terminal
dialogue (no password is asked for, or the password is read) it hands one
configuration to `ssh.Dial`, and: if the dial fails with `e` it returns
`(nil, nil, e)` and no connection was opened; if the dial succeeds and the
session fails with `e` it returns `(nil, nil, e)` and the connection obtained
from the dial is closed by the last effect before the return; if both succeed
it returns the client and the session with a nil error.  Whenever it returns,
the result is one of these two shapes, and with an error no transport
connection is open. -/
theorem connectToServer_handles (k : Keys) (t : Terminal) (n : Network)
    (host certificate userp : GoString)
    (hterm : (certificate ≠ [] ∧ userp ≠ []) ∨ ∃ pw, t.readPassword = .ok pw) :
    (∃ cfg, dialedConfig (connectToServer k t n host certificate userp).trace = some cfg ∧
      (∀ e, sshDial n (host ++ str ":22") cfg = .failed e →
        (connectToServer k t n host certificate userp).outcome =
          .returned (none, none, some e) ∧
        dialed (connectToServer k t n host certificate userp).trace = [] ∧
        openConns (connectToServer k t n host certificate userp).trace [] = []) ∧
      (∀ c e, sshDial n (host ++ str ":22") cfg = .client c → n.newSession c = .error e →
        (connectToServer k t n host certificate userp).outcome =
          .returned (none, none, some e) ∧
        dialed (connectToServer k t n host certificate userp).trace = [c] ∧
        (connectToServer k t n host certificate userp).trace.getLast? =
          some (.clientClose c) ∧
        openConns (connectToServer k t n host certificate userp).trace [] = []) ∧
      (∀ c s, sshDial n (host ++ str ":22") cfg = .client c → n.newSession c = .ok s →
        (connectToServer k t n host certificate userp).outcome =
          .returned (some c, some s, none) ∧
        openConns (connectToServer k t n host certificate userp).trace [] = [c])) ∧
    (∀ r, (connectToServer k t n host certificate userp).outcome = .returned r →
      (∃ c s, r = (some c, some s, none)) ∨
      (∃ e, r = (none, none, some e) ∧
        openConns (connectToServer k t n host certificate userp).trace [] = [])) := by
  obtain ⟨cfg0, hcfg⟩ := sshConfig_returns k t certificate userp hterm
  obtain ⟨h0, h1, h2, h3, -⟩ := connectToServer_of_config k t n host certificate userp cfg0 hcfg
  exact ⟨⟨_, h0, h1, h2, h3⟩,
    fun r hr => connectToServer_returned k t n host certificate userp r hr⟩

/-- C6 witness: with a key and a user name nothing is read from the terminal;
on a network that refuses the session the connection obtained is closed. -/
theorem connectToServer_handles_witness :
    ((str "id_rsa" ≠ [] ∧ str "alice" ≠ []) ∨ ∃ pw, typing.readPassword = .ok pw) ∧
    (∃ cfg, dialedConfig
        (connectToServer oneKey typing noSessionNet (str "h") (str "id_rsa")
          (str "alice")).trace = some cfg ∧
      (∀ e, sshDial noSessionNet (str "h" ++ str ":22") cfg = .failed e →
        (connectToServer oneKey typing noSessionNet (str "h") (str "id_rsa")
          (str "alice")).outcome = .returned (none, none, some e) ∧
        dialed (connectToServer oneKey typing noSessionNet (str "h") (str "id_rsa")
          (str "alice")).trace = [] ∧
        openConns (connectToServer oneKey typing noSessionNet (str "h") (str "id_rsa")
          (str "alice")).trace [] = []) ∧
      (∀ c e, sshDial noSessionNet (str "h" ++ str ":22") cfg = .client c →
        noSessionNet.newSession c = .error e →
        (connectToServer oneKey typing noSessionNet (str "h") (str "id_rsa")
          (str "alice")).outcome = .returned (none, none, some e) ∧
        dialed (connectToServer oneKey typing noSessionNet (str "h") (str "id_rsa")
          (str "alice")).trace = [c] ∧
        (connectToServer oneKey typing noSessionNet (str "h") (str "id_rsa")
          (str "alice")).trace.getLast? = some (.clientClose c) ∧
        openConns (connectToServer oneKey typing noSessionNet (str "h") (str "id_rsa")
          (str "alice")).trace [] = []) ∧
      (∀ c s, sshDial noSessionNet (str "h" ++ str ":22") cfg = .client c →
        noSessionNet.newSession c = .ok s →
        (connectToServer oneKey typing noSessionNet (str "h") (str "id_rsa")
          (str "alice")).outcome = .returned (some c, some s, none) ∧
        openConns (connectToServer oneKey typing noSessionNet (str "h") (str "id_rsa")
          (str "alice")).trace [] = [c])) ∧
    (∀ r, (connectToServer oneKey typing noSessionNet (str "h") (str "id_rsa")
        (str "alice")).outcome = .returned r →
      (∃ c s, r = (some c, some s, none)) ∨
      (∃ e, r = (none, none, some e) ∧
        openConns (connectToServer oneKey typing noSessionNet (str "h") (str "id_rsa")
          (str "alice")).trace [] = [])) :=
  ⟨Or.inl (by decide),
   connectToServer_handles oneKey typing noSessionNet (str "h") (str "id_rsa") (str "alice")
     (Or.inl (by decide))⟩

/-- C6 fails as stated: when the password cannot be read `connectToServer`
returns neither result: it panics (`panic("Failed getting password: ...")`),
after the prompts and before any dial. -/
theorem failed_password_read_panics :
    connectToServer oneKey noTty goodNet (str "h") (str "") (str "") =
      { outcome := .panicked
        trace := [.print (str "User: "), .scanf, .print (str "Password: "),
                  .readPassword, .println] } := by
  decide

/-- The three ways `connectToServer` ends once the key `id_rsa` is loaded for
`alice`: nothing answers, the session is refused, all goes well. -/
theorem connectToServer_failures :
    connectToServer oneKey typing deadNet (str "h") (str "id_rsa") (str "alice") =
      { outcome := .returned (none, none, some ⟨str "dial tcp: connection refused"⟩)
        trace := [.dial (str "h:22")
          { user := str "alice", auth := [some (.publicKeys (str "signer"))],
            ignoreHostKey := true } (.failed ⟨str "dial tcp: connection refused"⟩)] } ∧
    connectToServer oneKey typing noSessionNet (str "h") (str "id_rsa") (str "alice") =
      { outcome := .returned (none, none, some ⟨str "ssh: rejected"⟩)
        trace := [.dial (str "h:22")
          { user := str "alice", auth := [some (.publicKeys (str "signer"))],
            ignoreHostKey := true } (.client 7),
          .clientNewSession 7, .clientClose 7] } ∧
    connectToServer oneKey typing goodNet (str "h") (str "id_rsa") (str "alice") =
      { outcome := .returned (some 7, some 1, none)
        trace := [.dial (str "h:22")
          { user := str "alice", auth := [some (.publicKeys (str "signer"))],
            ignoreHostKey := true } (.client 7),
          .clientNewSession 7] } := by
  decide

/-- C9, as the code has it.  When the certificate path and the user name are
both non-empty there is no terminal event at all, and if the certificate file
is read and parsed as a private key the dial is made for the supplied user
name with that key as its one authentication method, and `connectToServer`
returns.  In every other case the terminal dialogue is the user prompt,
exactly when the supplied user name is empty, followed by the password prompt
and the masked read; when the password is read the dial is made with password
authentication for the supplied user name, or the one typed when none was
supplied, and `connectToServer` returns; a failed read panics before any
dial. -/
theorem auth_choice (k : Keys) (t : Terminal) (n : Network)
    (host certificate userp : GoString) :
    (certificate ≠ [] ∧ userp ≠ [] →
      terminalEvents (connectToServer k t n host certificate userp).trace = [] ∧
      (∀ buffer key, k.readFile certificate = .ok buffer →
        k.parsePrivateKey buffer = .ok key →
        dialedConfig (connectToServer k t n host certificate userp).trace =
          some { user := userp, auth := [some (.publicKeys key)], ignoreHostKey := true } ∧
        ∃ r, (connectToServer k t n host certificate userp).outcome = .returned r)) ∧
    (¬ (certificate ≠ [] ∧ userp ≠ []) →
      terminalEvents (connectToServer k t n host certificate userp).trace =
        (if userp = [] then [.print (str "User: "), .scanf] else []) ++
          [.print (str "Password: "), .readPassword, .println] ∧
      (∀ pw, t.readPassword = .ok pw →
        dialedConfig (connectToServer k t n host certificate userp).trace =
          some { user := if userp = [] then t.scanUser else userp
                 auth := [some (.password pw)], ignoreHostKey := true } ∧
        ∃ r, (connectToServer k t n host certificate userp).outcome = .returned r) ∧
      (∀ e, t.readPassword = .error e →
        (connectToServer k t n host certificate userp).outcome = .panicked ∧
        dialedConfig (connectToServer k t n host certificate userp).trace = none)) := by
  have hterms := terminalEvents_connectToServer k t n host certificate userp
  have hevs := sshConfig_events k t certificate userp
  constructor
  · intro hk
    rw [if_pos hk] at hevs
    refine ⟨by rw [hterms, hevs], ?_⟩
    intro buffer key hread hparse
    have hpk : publicKeyFile k certificate = some (.publicKeys key) := by
      unfold publicKeyFile
      rw [hread]
      simp only
      rw [hparse]
    have hcfg : sshConfig k t certificate userp =
        (.returned { user := userp, auth := [some (.publicKeys key)],
                     ignoreHostKey := false },
          (sshConfig k t certificate userp).2) := by
      rw [sshConfig_key k t certificate userp hk, hpk]
    exact ⟨(connectToServer_of_config k t n host certificate userp _ hcfg).1,
      connectToServer_returns k t n host certificate userp _ hcfg _ [] rfl⟩
  · intro hk
    rw [if_neg hk] at hevs
    refine ⟨by rw [hterms, hevs], ?_, ?_⟩
    · intro pw hpw
      have hcfg : sshConfig k t certificate userp =
          (.returned { user := if userp = [] then t.scanUser else userp
                       auth := [some (.password pw)], ignoreHostKey := false },
           (sshConfig k t certificate userp).2) := by
        rw [sshConfig_prompt k t certificate userp hk, hpw]
      exact ⟨(connectToServer_of_config k t n host certificate userp _ hcfg).1,
        connectToServer_returns k t n host certificate userp _ hcfg _ [] rfl⟩
    · intro e he
      have hcfg : sshConfig k t certificate userp =
          (.panicked, (sshConfig k t certificate userp).2) := by
        rw [sshConfig_prompt k t certificate userp hk, he]
      have := (openConns_sshConfig k t certificate userp [] []).2.2.1
      simp only [List.append_nil] at this
      unfold connectToServer
      rw [hcfg]
      refine ⟨rfl, ?_⟩
      show dialedConfig (sshConfig k t certificate userp).2 = none
      rw [this]
      rfl

/-- C9 witness: with the key file `id_rsa` and the user `alice` nothing is
asked and the dial carries the key of that file; with the key file alone the
user name is asked for, then the password, and the dial carries the password
typed for the user typed. -/
theorem auth_choice_witness :
    (str "id_rsa" ≠ [] ∧ str "alice" ≠ []) ∧
    oneKey.readFile (str "id_rsa") = .ok (str "PEM") ∧
    oneKey.parsePrivateKey (str "PEM") = .ok (str "signer") ∧
    terminalEvents
        (connectToServer oneKey typing goodNet (str "h") (str "id_rsa") (str "alice")).trace
        = [] ∧
    (dialedConfig
        (connectToServer oneKey typing goodNet (str "h") (str "id_rsa") (str "alice")).trace
        = some { user := str "alice", auth := [some (.publicKeys (str "signer"))],
                 ignoreHostKey := true } ∧
      ∃ r, (connectToServer oneKey typing goodNet (str "h") (str "id_rsa")
        (str "alice")).outcome = .returned r) ∧
    ¬ (str "id_rsa" ≠ [] ∧ str "" ≠ []) ∧
    terminalEvents
        (connectToServer oneKey typing goodNet (str "h") (str "id_rsa") (str "")).trace
        = (if str "" = [] then [.print (str "User: "), .scanf] else []) ++
          [.print (str "Password: "), .readPassword, .println] ∧
    (dialedConfig
        (connectToServer oneKey typing goodNet (str "h") (str "id_rsa") (str "")).trace
        = some { user := if str "" = [] then typing.scanUser else str ""
                 auth := [some (.password (str "secret"))], ignoreHostKey := true } ∧
      ∃ r, (connectToServer oneKey typing goodNet (str "h") (str "id_rsa")
        (str "")).outcome = .returned r) :=
  ⟨by decide, rfl, rfl,
   ((auth_choice oneKey typing goodNet (str "h") (str "id_rsa") (str "alice")).1
     (by decide)).1,
   ((auth_choice oneKey typing goodNet (str "h") (str "id_rsa") (str "alice")).1
     (by decide)).2 (str "PEM") (str "signer") rfl rfl,
   by decide,
   ((auth_choice oneKey typing goodNet (str "h") (str "id_rsa") (str "")).2 (by decide)).1,
   ((auth_choice oneKey typing goodNet (str "h") (str "id_rsa") (str "")).2 (by decide)).2.1
     (str "secret") rfl⟩

/-- C9 fails as stated: the certificate path `no-such-key` and the user name
`alice` are both non-empty, yet no key-based authentication is used: the key
file cannot be read, the one entry of `Auth` is nil, and the dial panics when
the server asks for authentication. -/
theorem unreadable_key_gives_nil_method :
    (str "no-such-key" ≠ [] ∧ str "alice" ≠ []) ∧
    publicKeyFile oneKey (str "no-such-key") = none ∧
    connectToServer oneKey typing goodNet (str "h") (str "no-such-key") (str "alice") =
      { outcome := .panicked
        trace := [.dial (str "h:22")
          { user := str "alice", auth := [none], ignoreHostKey := true } (.nilMethod 7)] } := by
  decide

end Deploy
